import Mathlib

/-!
Verification of the corky-telegram relay core (`src/main.rs`) via a shallow
embedding in Lean 4.  Pure functions of the source are translated directly;
the effectful delivery loops are embedded as trace-producing functions over
an abstract per-attempt outcome sequence, and the listener and dispatcher
loops as state-transition functions over explicit event/result sequences.
-/

namespace CorkyTelegram

/-! ## Truncation (`truncate_str`, main.rs lines 12-17)

Rust strings are UTF-8 byte sequences; `truncate_str` slices the byte
sequence at the byte offset reported by `char_indices().nth(max_chars)`.
We model a Rust `&str` as its sequence of Unicode code points (`List Char`)
together with its UTF-8 byte encoding, and embed `truncate_str` as the
byte-level function the source actually computes. -/

/-- UTF-8 encoding of one code point (1 to 4 bytes, per RFC 3629). -/
def utf8Bytes (c : Char) : List Nat :=
  let n := c.toNat
  if n < 0x80 then [n]
  else if n < 0x800 then [0xC0 + n / 64, 0x80 + n % 64]
  else if n < 0x10000 then [0xE0 + n / 4096, 0x80 + (n / 64) % 64, 0x80 + n % 64]
  else [0xF0 + n / 262144, 0x80 + (n / 4096) % 64, 0x80 + (n / 64) % 64, 0x80 + n % 64]

/-- UTF-8 encoding of a whole string (list of code points). -/
def utf8Encode (s : List Char) : List Nat :=
  (s.map utf8Bytes).flatten

/-- Total UTF-8 byte size of a string. -/
def byteSize (s : List Char) : Nat :=
  (s.map (fun c => (utf8Bytes c).length)).sum

/-- Helper for `char_indices`: pairs each code point with its byte offset,
starting from offset `off`. -/
def charIndicesAux (off : Nat) : List Char → List (Nat × Char)
  | [] => []
  | c :: cs => (off, c) :: charIndicesAux (off + (utf8Bytes c).length) cs

/-- Rust `str::char_indices`: each code point with its starting byte offset. -/
def charIndices (s : List Char) : List (Nat × Char) :=
  charIndicesAux 0 s

/-- Embedding of `truncate_str` (main.rs lines 12-17): look up the byte
offset of code point number `max_chars`; if it exists, keep the bytes
before it, otherwise return the whole string. -/
def truncate_str (s : List Char) (max_chars : Nat) : List Nat :=
  match (charIndices s).get? max_chars with
  | some p => (utf8Encode s).take p.1
  | none => utf8Encode s

/-! ## Data model and command routing (`process_zmq_message`, main.rs lines 114-123 and 188-223)

`process_zmq_message` immediately performs sends; we embed it as the pure
resolution step it computes: the ordered list of delivery requests it issues
to the two send functions.  A text-only send appears as a request whose
`image_path` is `none`.  The `HashMap` of subscriber lists is embedded as an
association list queried with `List.lookup`. -/

/-- The decoded command (struct `ZmqMessage`, main.rs lines 114-123). -/
structure ZmqMessage where
  chat_id : Option Int
  subscriber_list : Option String
  text : String
  image_path : Option String
deriving DecidableEq

/-- The relevant part of `TelegramSettings` (main.rs lines 30-37). -/
structure TelegramSettings where
  owner_chat_id : Int
  subscriber_lists : List (String × List Int)
deriving DecidableEq

/-- One resolved delivery request: destination chat, text, optional image. -/
structure DeliveryRequest where
  chat : Int
  text : String
  image_path : Option String
deriving DecidableEq

/-- An ASCII apostrophe, as used by the diagnostic format string. -/
def quoteMark : String :=
  (Char.ofNat 39).toString

/-- The templated diagnostic text of main.rs line 215:
format "Warning: unknown subscriber list ..." around the list name. -/
def unknownListMessage (list_name : String) : String :=
  "Warning: unknown subscriber list " ++ quoteMark ++ list_name ++ quoteMark

/-- Embedding of `process_zmq_message` (main.rs lines 188-223) as the list
of delivery requests it issues, in order. -/
def process_zmq_message (settings : TelegramSettings) (cmd : ZmqMessage) :
    List DeliveryRequest :=
  match cmd.chat_id with
  | some chat_id => [⟨chat_id, cmd.text, cmd.image_path⟩]
  | none =>
    match cmd.subscriber_list with
    | some list_name =>
      match settings.subscriber_lists.lookup list_name with
      | some subs => subs.map (fun sub_id => ⟨sub_id, cmd.text, cmd.image_path⟩)
      | none => [⟨settings.owner_chat_id, unknownListMessage list_name, none⟩]
    | none => [⟨settings.owner_chat_id, cmd.text, cmd.image_path⟩]

/-! ## Delivery engine (`send_to_chat_with_retry`, main.rs lines 226-258,
and `send_to_chat_with_image_retry`, main.rs lines 261-311)

Each attempt's interaction with the platform is abstracted as an outcome:
the send succeeded, the platform reported an error (`Ok(Err(_))`), or the
30s/60s timeout elapsed (`Err(_elapsed)`).  The loops are embedded as
functions from the per-attempt outcome sequence to the trace of observable
actions they perform, in order. -/

/-- Retry bound (main.rs lines 227 and 262). -/
def MAX_RETRIES : Nat := 3

/-- Base backoff delay in milliseconds (main.rs lines 228 and 263). -/
def BASE_DELAY_MS : Nat := 500

/-- Result of one attempted platform send, as seen through the timeout
wrapper. -/
inductive SendOutcome where
  | success
  | sendError
  | timeout
deriving DecidableEq

/-- Observable actions of the text-delivery loop: starting attempt `n`,
sleeping `ms` milliseconds, or returning after a successful send. -/
inductive TextAction where
  | attempt (n : Nat)
  | sleep (ms : Nat)
  | sent
deriving DecidableEq

/-- Body of the `for attempt in 0..MAX_RETRIES` loop of
`send_to_chat_with_retry` (main.rs lines 230-257), with the remaining
iteration count as fuel. -/
def textAttempts (outcomes : Nat → SendOutcome) : Nat → Nat → List TextAction
  | _, 0 => []
  | attempt, fuel + 1 =>
    match outcomes attempt with
    | SendOutcome.success => [TextAction.attempt attempt, TextAction.sent]
    | SendOutcome.sendError =>
      if attempt < MAX_RETRIES - 1 then
        TextAction.attempt attempt ::
          TextAction.sleep (BASE_DELAY_MS * 2 ^ attempt) ::
          textAttempts outcomes (attempt + 1) fuel
      else
        [TextAction.attempt attempt]
    | SendOutcome.timeout =>
      if attempt < MAX_RETRIES - 1 then
        TextAction.attempt attempt :: textAttempts outcomes (attempt + 1) fuel
      else
        [TextAction.attempt attempt]

/-- Embedding of `send_to_chat_with_retry` (main.rs lines 226-258): the
trace of attempts, sleeps and success of the whole loop. -/
def send_to_chat_with_retry (outcomes : Nat → SendOutcome) : List TextAction :=
  textAttempts outcomes 0 MAX_RETRIES

/-- Attempt numbers occurring in a text trace, in order. -/
def attemptsOf : List TextAction → List Nat
  | [] => []
  | TextAction.attempt n :: rest => n :: attemptsOf rest
  | _ :: rest => attemptsOf rest

/-- Sleep durations occurring in a text trace, in order. -/
def delaysOf : List TextAction → List Nat
  | [] => []
  | TextAction.sleep ms :: rest => ms :: delaysOf rest
  | _ :: rest => delaysOf rest

/-- Observable actions of the image-delivery function: starting image
attempt `n`, sleeping, returning after a successful image send, or invoking
the text-only path (`send_to_chat_with_retry`) with the given text. -/
inductive ImageAction where
  | imageAttempt (n : Nat)
  | sleep (ms : Nat)
  | sentImage
  | textDelivery (text : String)
deriving DecidableEq

/-- The augmented fallback text of main.rs lines 297 and 306:
format "(Image attachment failed: ...)" appended to the original text. -/
def augmentedText (text image_path : String) : String :=
  text ++ " (Image attachment failed: " ++ image_path ++ ")"

/-- Body of the `for attempt in 0..MAX_RETRIES` loop of
`send_to_chat_with_image_retry` (main.rs lines 273-310). -/
def imageAttempts (outcomes : Nat → SendOutcome) (text image_path : String) :
    Nat → Nat → List ImageAction
  | _, 0 => []
  | attempt, fuel + 1 =>
    match outcomes attempt with
    | SendOutcome.success => [ImageAction.imageAttempt attempt, ImageAction.sentImage]
    | SendOutcome.sendError =>
      if attempt < MAX_RETRIES - 1 then
        ImageAction.imageAttempt attempt ::
          ImageAction.sleep (BASE_DELAY_MS * 2 ^ attempt) ::
          imageAttempts outcomes text image_path (attempt + 1) fuel
      else
        [ImageAction.imageAttempt attempt,
         ImageAction.textDelivery (augmentedText text image_path)]
    | SendOutcome.timeout =>
      if attempt < MAX_RETRIES - 1 then
        ImageAction.imageAttempt attempt ::
          imageAttempts outcomes text image_path (attempt + 1) fuel
      else
        [ImageAction.imageAttempt attempt,
         ImageAction.textDelivery (augmentedText text image_path)]

/-- Embedding of `send_to_chat_with_image_retry` (main.rs lines 261-311).
`fileExists` abstracts `PathBuf::exists` at invocation time; when the file
is missing the function performs no image attempt and invokes the text-only
path once with the original text (main.rs lines 266-271). -/
def send_to_chat_with_image_retry (fileExists : String → Bool)
    (outcomes : Nat → SendOutcome) (text image_path : String) :
    List ImageAction :=
  if fileExists image_path then
    imageAttempts outcomes text image_path 0 MAX_RETRIES
  else
    [ImageAction.textDelivery text]

/-! ## Queue listener polling loop (main.rs lines 498-533)

One iteration of the inner polling loop is embedded as a transition on the
`consecutive_errors` counter, driven by the observed poll/receive result. -/

/-- Ceiling on consecutive transport errors (main.rs line 499). -/
def max_consecutive_errors : Nat := 10

/-- Outcome of one `zmq::poll` iteration, as matched at main.rs lines
504-532: a clean timeout (`Ok(0)`), a ready socket whose receive succeeds,
a ready socket whose receive errors, a poll wakeup without `POLLIN` on our
socket, or a poll error. -/
inductive PollResult where
  | timeout
  | readyRecvOk
  | readyRecvErr
  | readyNoPollin
  | pollErr
deriving DecidableEq

/-- The new value of `consecutive_errors` after one polling-loop iteration
with result `r`, starting from counter `c` (main.rs lines 504-532). -/
def pollStep (r : PollResult) (c : Nat) : Nat :=
  match r with
  | PollResult.timeout => c
  | PollResult.readyRecvOk => 0
  | PollResult.readyRecvErr => c + 1
  | PollResult.readyNoPollin => c
  | PollResult.pollErr => c + 1

/-! ## Event dispatcher (main.rs lines 571-579)

The central event loop is embedded as a function from the sequence of
events the channel would deliver to the list of ZMQ frame batches the loop
actually hands to `handle_zmq_frames`, in order. -/

/-- Events crossing the central channel (enum `Event`, main.rs lines 126-129). -/
inductive Event where
  | Zmq (frames : List (List Nat))
  | Shutdown
deriving DecidableEq

/-- Embedding of the central event loop (main.rs lines 571-579): process
queue batches in arrival order, stop at the first `Shutdown` (or when the
channel is exhausted). -/
def eventLoop : List Event → List (List (List Nat))
  | [] => []
  | Event.Zmq frames :: rest => frames :: eventLoop rest
  | Event.Shutdown :: _ => []

/-- A concrete configuration used by the closed instances below: owner chat
99 and one subscriber list named ops containing chats 1, 2, 3. -/
def sampleSettings : TelegramSettings :=
  ⟨99, [("ops", [1, 2, 3])]⟩

/-! ## Supporting lemmas about the truncation embedding -/

theorem charIndicesAux_get? (s : List Char) (off n : Nat) :
    (charIndicesAux off s).get? n =
      (s.get? n).map (fun c => (off + byteSize (s.take n), c)) := by
  induction s generalizing off n with
  | nil => simp [charIndicesAux]
  | cons c cs ih =>
    cases n with
    | zero => simp [charIndicesAux, byteSize]
    | succ m =>
      simp only [charIndicesAux, List.get?_cons_succ, ih, List.take_succ_cons]
      cases cs.get? m with
      | none => simp
      | some d =>
        simp [byteSize, Nat.add_assoc]

theorem utf8Encode_append (a b : List Char) :
    utf8Encode (a ++ b) = utf8Encode a ++ utf8Encode b := by
  simp [utf8Encode]

theorem length_utf8Encode (s : List Char) :
    (utf8Encode s).length = byteSize s := by
  induction s with
  | nil => simp [utf8Encode, byteSize]
  | cons c cs ih =>
    simp [utf8Encode, byteSize] at ih ⊢
    omega

/-- The byte-level truncation equals the encoding of the code-point-level
prefix of length `max_chars`: no code point is ever split. -/
theorem truncate_str_eq (s : List Char) (n : Nat) :
    truncate_str s n = utf8Encode (s.take n) := by
  have hidx : (charIndices s).get? n =
      (s.get? n).map (fun c => (0 + byteSize (s.take n), c)) :=
    charIndicesAux_get? s 0 n
  cases h : s.get? n with
  | none =>
    rw [h] at hidx
    rw [List.get?_eq_none] at h
    rw [truncate_str, hidx]
    simp [List.take_of_length_le h]
  | some c =>
    rw [h] at hidx
    rw [truncate_str, hidx]
    show (utf8Encode s).take (0 + byteSize (s.take n)) = utf8Encode (s.take n)
    have hsplit : s = s.take n ++ s.drop n := (List.take_append_drop n s).symm
    have henc : utf8Encode s = utf8Encode (s.take n) ++ utf8Encode (s.drop n) := by
      conv_lhs => rw [hsplit]
      exact utf8Encode_append _ _
    rw [Nat.zero_add, henc, ← length_utf8Encode, List.take_left]

/-! ## Claim C1 -/

/-- Claim C1 as stated is false: with the image file missing, the engine
falls back to the text-only path with the ORIGINAL text, not an augmented
message containing the image path (main.rs line 269 passes `text`
unchanged; the augmented text is used only at lines 297 and 306). -/
theorem image_missing_file_cex :
    send_to_chat_with_image_retry (fun _ => false) (fun _ => SendOutcome.success)
        "hi" "img.png" = [ImageAction.textDelivery "hi"] ∧
    ImageAction.textDelivery (augmentedText "hi" "img.png") ∉
      send_to_chat_with_image_retry (fun _ => false) (fun _ => SendOutcome.success)
        "hi" "img.png" := by
  decide

/-- Claim C1 (amended): when the image file does not exist at invocation
time, the Delivery Engine performs no image send attempt (consuming no
image-retry attempts, and sleeping no backoff delay) and invokes the
text-only path exactly once, with the original text unchanged. -/
theorem image_missing_file_degrades (fileExists : String → Bool)
    (outcomes : Nat → SendOutcome) (text image_path : String)
    (h : fileExists image_path = false) :
    send_to_chat_with_image_retry fileExists outcomes text image_path =
      [ImageAction.textDelivery text] := by
  simp [send_to_chat_with_image_retry, h]

/-- Witness for claim C1's amended theorem at a concrete missing file. -/
theorem image_missing_file_degrades_witness :
    send_to_chat_with_image_retry (fun _ => false) (fun _ => SendOutcome.success)
      "hello" "chart.png" = [ImageAction.textDelivery "hello"] :=
  image_missing_file_degrades (fun _ => false) (fun _ => SendOutcome.success)
    "hello" "chart.png" rfl

/-! ## Claim C2 -/

/-- Claim C2 as stated is false: attempt 0 times out, is not the last
attempt, yet the trace contains no sleep at all before attempt 1 (the
timeout arm at main.rs lines 249-255 never sleeps). -/
theorem timeout_no_sleep_cex :
    send_to_chat_with_retry
        (fun i => if i = 0 then SendOutcome.timeout else SendOutcome.success) =
      [TextAction.attempt 0, TextAction.attempt 1, TextAction.sent] ∧
    TextAction.sleep (BASE_DELAY_MS * 2 ^ 0) ∉
      send_to_chat_with_retry
        (fun i => if i = 0 then SendOutcome.timeout else SendOutcome.success) := by
  decide

/-- Claim C2 (amended): a text-delivery attempt that times out and is not
the last attempt is followed IMMEDIATELY by the next attempt, with no sleep
action in between; the backoff sleep of BASE_DELAY_MS * 2 ^ attempt occurs
only after a platform-reported send error on a non-final attempt. -/
theorem timeout_retries_immediately (outcomes : Nat → SendOutcome)
    (a fuel : Nat) (hlast : a < MAX_RETRIES - 1) :
    (outcomes a = SendOutcome.timeout →
      textAttempts outcomes a (fuel + 1) =
        TextAction.attempt a :: textAttempts outcomes (a + 1) fuel) ∧
    (outcomes a = SendOutcome.sendError →
      textAttempts outcomes a (fuel + 1) =
        TextAction.attempt a :: TextAction.sleep (BASE_DELAY_MS * 2 ^ a) ::
          textAttempts outcomes (a + 1) fuel) := by
  constructor <;> intro h <;> simp [textAttempts, h, hlast]

/-- Witness for claim C2's amended theorem: attempt 0 of a run that always
times out is followed directly by the remaining attempts. -/
theorem timeout_retries_immediately_witness :
    textAttempts (fun _ => SendOutcome.timeout) 0 3 =
      TextAction.attempt 0 :: textAttempts (fun _ => SendOutcome.timeout) 1 2 :=
  (timeout_retries_immediately (fun _ => SendOutcome.timeout) 0 2 (by decide)).1 rfl

/-! ## Claim C3 -/

/-- Claim C3 as stated is false: a clean poll timeout leaves the
consecutive-error counter at its old value 3 instead of resetting it to 0
the way a successful receive does (the `Ok(0)` arm at main.rs lines 505-508
does not touch `consecutive_errors`). -/
theorem poll_timeout_cex :
    pollStep PollResult.timeout 3 = 3 ∧
    pollStep PollResult.readyRecvOk 3 = 0 ∧ (3 : Nat) ≠ 0 := by
  decide

/-- Claim C3 (amended): a poll returning zero ready sockets leaves the
consecutive-error counter UNCHANGED; only a successful receive resets it to
zero. -/
theorem poll_timeout_keeps_counter (c : Nat) :
    pollStep PollResult.timeout c = c ∧ pollStep PollResult.readyRecvOk c = 0 :=
  ⟨rfl, rfl⟩

/-! ## Claim C4 -/

/-- Claim C4 as stated is false: for a command carrying an image path and an
unknown subscriber list, the single diagnostic request is text-only (its
image path is `none`, since main.rs line 212 calls the text-only sender),
so it does not carry the command's original image path. -/
theorem diag_drops_image_path_cex :
    process_zmq_message sampleSettings ⟨none, some "nope", "hi", some "img.png"⟩ =
      [⟨99, unknownListMessage "nope", none⟩] ∧
    (some "img.png" : Option String) ≠ none := by
  decide

/-- Claim C4 (amended): every delivery request produced by the router
carries the command's original imagePath unchanged, EXCEPT the diagnostic
request for an unknown subscriber list, which is text-only (image path
`none`) and carries the templated diagnostic text. -/
theorem routing_preserves_image_path (settings : TelegramSettings)
    (cmd : ZmqMessage) (r : DeliveryRequest)
    (h : r ∈ process_zmq_message settings cmd) :
    r.image_path = cmd.image_path ∨
      (∃ l, cmd.chat_id = none ∧ cmd.subscriber_list = some l ∧
        settings.subscriber_lists.lookup l = none ∧
        r = ⟨settings.owner_chat_id, unknownListMessage l, none⟩) := by
  obtain ⟨cid, sl, text, img⟩ := cmd
  cases cid with
  | some c =>
    simp [process_zmq_message] at h
    left
    simp [h]
  | none =>
    cases sl with
    | none =>
      simp [process_zmq_message] at h
      left
      simp [h]
    | some l =>
      cases hl : settings.subscriber_lists.lookup l with
      | some subs =>
        simp [process_zmq_message, hl] at h
        obtain ⟨a, _, ha⟩ := h
        left
        simp [← ha]
      | none =>
        simp [process_zmq_message, hl] at h
        right
        exact ⟨l, rfl, rfl, hl, by simp [h]⟩

/-- Witness for claim C4's amended theorem at a concrete fan-out request. -/
theorem routing_preserves_image_path_witness :
    (⟨1, "alert", some "chart.png"⟩ : DeliveryRequest).image_path =
      (⟨none, some "ops", "alert", some "chart.png"⟩ : ZmqMessage).image_path ∨
    (∃ l, (⟨none, some "ops", "alert", some "chart.png"⟩ : ZmqMessage).chat_id = none ∧
      (⟨none, some "ops", "alert", some "chart.png"⟩ : ZmqMessage).subscriber_list = some l ∧
      sampleSettings.subscriber_lists.lookup l = none ∧
      (⟨1, "alert", some "chart.png"⟩ : DeliveryRequest) =
        ⟨sampleSettings.owner_chat_id, unknownListMessage l, none⟩) :=
  routing_preserves_image_path sampleSettings
    ⟨none, some "ops", "alert", some "chart.png"⟩
    ⟨1, "alert", some "chart.png"⟩ (by decide)

/-! ## Claim C5 -/

/-- Claim C5: a command with both a direct destination chat id and a
subscriber list name resolves to exactly one delivery request, addressed to
the direct id with the original text and image path; the list is ignored
(main.rs lines 195-200 take the `chat_id` branch first). -/
theorem routing_direct_priority (settings : TelegramSettings)
    (cmd : ZmqMessage) (cid : Int) (l : String)
    (h1 : cmd.chat_id = some cid) (_h2 : cmd.subscriber_list = some l) :
    process_zmq_message settings cmd = [⟨cid, cmd.text, cmd.image_path⟩] := by
  unfold process_zmq_message
  rw [h1]

/-- Witness for claim C5's theorem at a concrete command. -/
theorem routing_direct_priority_witness :
    process_zmq_message sampleSettings ⟨some 555, some "ops", "hello", none⟩ =
      [⟨555, "hello", none⟩] :=
  routing_direct_priority sampleSettings ⟨some 555, some "ops", "hello", none⟩
    555 "ops" rfl rfl

/-! ## Claim C6 -/

/-- Claim C6 as stated is false on one point: when the command's original
text happens to be exactly the templated diagnostic string, the diagnostic
request's text EQUALS the original text, so it is not distinct from it. -/
theorem unknown_list_text_collision_cex :
    process_zmq_message sampleSettings
        ⟨none, some "nope", unknownListMessage "nope", none⟩ =
      [⟨99, unknownListMessage "nope", none⟩] ∧
    (⟨99, unknownListMessage "nope", none⟩ : DeliveryRequest).text =
      (⟨none, some "nope", unknownListMessage "nope", none⟩ : ZmqMessage).text := by
  decide

/-- Claim C6 (amended): for a command with no direct chat id and a
subscriber list name absent from the table, routing produces zero delivery
requests to any list member and exactly one diagnostic request to the owner
destination, whose text is the templated unknown-subscriber-list message;
that text differs from the original text whenever the original text is not
itself exactly the templated message. -/
theorem routing_unknown_list (settings : TelegramSettings) (cmd : ZmqMessage)
    (l : String) (h1 : cmd.chat_id = none) (h2 : cmd.subscriber_list = some l)
    (h3 : settings.subscriber_lists.lookup l = none) :
    process_zmq_message settings cmd =
      [⟨settings.owner_chat_id, unknownListMessage l, none⟩] ∧
    (cmd.text ≠ unknownListMessage l →
      ∀ r ∈ process_zmq_message settings cmd, r.text ≠ cmd.text) := by
  have he : process_zmq_message settings cmd =
      [⟨settings.owner_chat_id, unknownListMessage l, none⟩] := by
    simp [process_zmq_message, h1, h2, h3]
  refine ⟨he, fun hne r hr => ?_⟩
  rw [he] at hr
  rw [List.mem_singleton] at hr
  rw [hr]
  exact Ne.symm hne

/-- Witness for claim C6's amended theorem at a concrete command whose list
is absent from the table. -/
theorem routing_unknown_list_witness :
    process_zmq_message sampleSettings ⟨none, some "nope", "alert", some "img.png"⟩ =
      [⟨99, unknownListMessage "nope", none⟩] :=
  (routing_unknown_list sampleSettings ⟨none, some "nope", "alert", some "img.png"⟩
    "nope" rfl rfl (by decide)).1

/-! ## Claim C7 -/

/-- Claim C7 as stated is false: when every attempt fails by timing out,
exactly three attempts occur but NO inter-attempt delay is slept at all
(the timeout arm at main.rs lines 249-255 never sleeps), contradicting the
claimed 500ms and 1000ms delays. -/
theorem all_timeouts_no_delay_cex :
    send_to_chat_with_retry (fun _ => SendOutcome.timeout) =
      [TextAction.attempt 0, TextAction.attempt 1, TextAction.attempt 2] ∧
    delaysOf (send_to_chat_with_retry (fun _ => SendOutcome.timeout)) = [] := by
  decide

/-- Claim C7 (amended): for a text delivery in which every attempt fails,
exactly MAX_RETRIES = 3 attempts occur and the engine returns its trace
without propagating any error; a delay of BASE_DELAY_MS (after attempt 0)
respectively 2 * BASE_DELAY_MS (after attempt 1) is slept exactly when that
attempt failed with a platform-reported send error, a timed-out attempt
contributes no delay, and no delay follows the final attempt. -/
theorem text_all_fail_schedule (outcomes : Nat → SendOutcome)
    (h0 : outcomes 0 ≠ SendOutcome.success)
    (h1 : outcomes 1 ≠ SendOutcome.success)
    (h2 : outcomes 2 ≠ SendOutcome.success) :
    attemptsOf (send_to_chat_with_retry outcomes) = [0, 1, 2] ∧
    delaysOf (send_to_chat_with_retry outcomes) =
      (if outcomes 0 = SendOutcome.sendError then [BASE_DELAY_MS] else []) ++
      (if outcomes 1 = SendOutcome.sendError then [2 * BASE_DELAY_MS] else []) ∧
    TextAction.sent ∉ send_to_chat_with_retry outcomes := by
  cases hc0 : outcomes 0 <;> cases hc1 : outcomes 1 <;> cases hc2 : outcomes 2 <;>
    simp_all [send_to_chat_with_retry, textAttempts, attemptsOf, delaysOf,
      MAX_RETRIES, BASE_DELAY_MS]

/-- Witness for claim C7's amended theorem: all attempts fail with platform
errors, giving the full 500ms, 1000ms backoff schedule. -/
theorem text_all_fail_schedule_witness :
    attemptsOf (send_to_chat_with_retry (fun _ => SendOutcome.sendError)) = [0, 1, 2] ∧
    delaysOf (send_to_chat_with_retry (fun _ => SendOutcome.sendError)) = [500, 1000] ∧
    TextAction.sent ∉ send_to_chat_with_retry (fun _ => SendOutcome.sendError) := by
  have h := text_all_fail_schedule (fun _ => SendOutcome.sendError)
    (by decide) (by decide) (by decide)
  refine ⟨h.1, ?_, h.2.2⟩
  rw [h.2.1]
  decide

/-! ## Claim C8 -/

/-- Claim C8: truncation returns (the UTF-8 bytes of) the largest prefix of
the string whose character count does not exceed the limit, returns the
whole string when it is short enough, never splits a multi-byte code point
(the result is exactly the encoding of a whole-character prefix), and is
idempotent: re-truncating the resulting prefix at the same limit yields the
same result. -/
theorem truncate_str_spec (s : List Char) (n : Nat) :
    truncate_str s n = utf8Encode (s.take n) ∧
    (s.take n).length ≤ n ∧
    s.take n <+: s ∧
    (∀ t : List Char, t <+: s → t.length ≤ n → t <+: s.take n) ∧
    (s.length ≤ n → truncate_str s n = utf8Encode s) ∧
    truncate_str (s.take n) n = truncate_str s n := by
  refine ⟨truncate_str_eq s n, ?_, List.take_prefix n s, ?_, ?_, ?_⟩
  · simp
  · intro t ht hlen
    obtain ⟨r, rfl⟩ := ht
    rw [List.take_append_eq_append_take, List.take_of_length_le hlen]
    exact ⟨_, rfl⟩
  · intro hle
    rw [truncate_str_eq, List.take_of_length_le hle]
  · rw [truncate_str_eq, truncate_str_eq, List.take_take, Nat.min_self]

/-- Witness for claim C8's theorem at concrete strings and limits. -/
theorem truncate_str_spec_witness :
    truncate_str [ 'a', 'b', 'c' ] 2 = [97, 98] ∧
    [ 'a' ] <+: [ 'a', 'b', 'c' ].take 2 ∧
    truncate_str [ 'h', 'i' ] 5 = utf8Encode [ 'h', 'i' ] := by
  refine ⟨?_, ?_, ?_⟩
  · rw [(truncate_str_spec [ 'a', 'b', 'c' ] 2).1]
    decide
  · exact (truncate_str_spec [ 'a', 'b', 'c' ] 2).2.2.2.1 [ 'a' ]
      ⟨[ 'b', 'c' ], rfl⟩ (by decide)
  · exact (truncate_str_spec [ 'h', 'i' ] 5).2.2.2.2.1 (by decide)

/-! ## Claim C9 -/

/-- Claim C9: the dispatch loop exits at a Shutdown event; the batches it
processes do not depend on anything queued after that Shutdown, and a loop
starting at a Shutdown processes nothing at all. -/
theorem shutdown_stops_loop (es tail : List Event) :
    eventLoop (es ++ Event.Shutdown :: tail) = eventLoop (es ++ [Event.Shutdown]) ∧
    eventLoop (Event.Shutdown :: tail) = [] := by
  constructor
  · induction es with
    | nil => rfl
    | cons e rest ih =>
      cases e with
      | Zmq frames =>
        simp only [List.cons_append, eventLoop]
        exact congrArg (fun l => frames :: l) ih
      | Shutdown => rfl
  · rfl

/-! ## Claim C10 -/

/-- Claim C10: a command with no direct chat id whose subscriber list is
present in the table but maps to an empty list of destinations produces
zero delivery requests and no owner diagnostic: it is silently dropped
(the `for` loop at main.rs lines 203-209 iterates zero times). -/
theorem routing_empty_list_drops (settings : TelegramSettings)
    (cmd : ZmqMessage) (l : String)
    (h1 : cmd.chat_id = none) (h2 : cmd.subscriber_list = some l)
    (h3 : settings.subscriber_lists.lookup l = some []) :
    process_zmq_message settings cmd = [] := by
  simp [process_zmq_message, h1, h2, h3]

/-- Witness for claim C10's theorem at a concrete empty subscriber list. -/
theorem routing_empty_list_drops_witness :
    process_zmq_message ⟨99, [("idle", [])]⟩ ⟨none, some "idle", "hello", none⟩ = [] :=
  routing_empty_list_drops ⟨99, [("idle", [])]⟩ ⟨none, some "idle", "hello", none⟩
    "idle" rfl rfl (by decide)

end CorkyTelegram
